import Mathlib

/-!
Formal model of the morphic-dreamer-watch repository: the orchestration
workflow ("lib/actions/workflow.tsx"), the Tavily search tool adapter
("lib/agents/tools/search.tsx"), the advanced-search endpoint and its Redis
cache ("app/api/advanced-search/route.ts"), and chat persistence
("lib/actions/chat.ts").

External primitives (model calls, fetch, the JSON builtin, the Redis client
libraries) are represented by oracle parameters or by their documented
contracts; every piece of repository logic is translated directly from the
TypeScript sources.
-/

namespace Morphic

/-! Generic JSON values: the results of the JSON builtin parse and the
    arguments of the JSON builtin stringify. The builtin pair is modeled by
    its contract, parse of stringify of v equals v for every serializable v,
    so a stored serialization is represented by the value itself. -/

inductive Jdata where
  | null : Jdata
  | bool : Bool → Jdata
  | num : Int → Jdata
  | str : String → Jdata
  | arr : List Jdata → Jdata
  | obj : List (String × Jdata) → Jdata

/-- JS truthiness of a parsed JSON value. -/
def jsTruthy : Jdata → Bool
  | Jdata.null => false
  | Jdata.bool b => b
  | Jdata.num n => !(n == 0)
  | Jdata.str s => !(s == "")
  | Jdata.arr _ => true
  | Jdata.obj _ => true

/-! Search tool adapter, "lib/agents/tools/search.tsx". The file holds two
    concatenated variants of searchTool and tavilySearch; they agree on
    everything modeled here (padding, the max_results guard, the request
    body, the error fallback). The model follows lines 19 to 141. -/

/-- One text search result, "lib/types/index.ts" SearchResultItem. -/
structure SearchResultItem where
  title : String
  url : String
  content : String
deriving Repr, DecidableEq

/-- One image search result after processing: url plus optional description,
    "lib/types/index.ts" SearchResultImage (object form). -/
structure SearchResultImage where
  url : String
  description : Option String
deriving Repr, DecidableEq

/-- Search result envelope, "lib/types/index.ts" SearchResults. -/
structure SearchResults where
  results : List SearchResultItem
  query : String
  images : List SearchResultImage
  number_of_results : Int
deriving Repr, DecidableEq

/-- Raw image entry of the upstream JSON response, before sanitizing and
    filtering (search.tsx lines 131 to 139). -/
structure RawImage where
  url : String
  description : Option String
deriving Repr, DecidableEq

/-- Parsed JSON body of a successful upstream response (search.tsx line 130). -/
structure TavilyData where
  results : List SearchResultItem
  query : String
  images : List RawImage
  number_of_results : Int
deriving Repr, DecidableEq

/-- Request body sent to the upstream search API (search.tsx lines 115 to 125). -/
structure TavilyRequestBody where
  api_key : String
  query : String
  max_results : Int
  search_depth : String
  include_images : Bool
  include_domains : List String
  exclude_domains : List String
deriving Repr, DecidableEq

/-- Environment of one searchTool execution: the configured API key, the
    outcome of the fetch to the upstream endpoint, and the sanitizeUrl helper
    imported from the lib/utils module (not among the given sources, kept
    abstract; no claim depends on it). -/
structure TavilyEnv where
  apiKey : Option String
  fetchOk : Bool
  data : TavilyData
  sanitizeUrl : String → String

/-- Image post-processing of tavilySearch (search.tsx lines 131 to 139): map
    sanitizeUrl over the urls and keep only entries with a description. -/
def processImages (sanitize : String → String) (imgs : List RawImage) :
    List SearchResultImage :=
  (imgs.map fun i => ({ url := sanitize i.url, description := i.description } :
      SearchResultImage)).filter fun i => i.description.isSome

/-- JS String.prototype.padEnd with a single pad character
    (search.tsx line 41: query.padEnd(5, ' ')). -/
def padEnd (s : String) (targetLength : Nat) (c : Char) : String :=
  s ++ String.mk (List.replicate (targetLength - s.length) c)

/-- tavilySearch (search.tsx lines 101 to 141), returning the outcome together
    with the list of HTTP requests issued to the upstream endpoint. A missing
    API key throws before any request; a non-ok response throws after the
    request was made. -/
def tavilySearch (env : TavilyEnv) (query : String) (maxResults : Int)
    (searchDepth : String) (includeDomains excludeDomains : List String) :
    Except String SearchResults × List TavilyRequestBody :=
  match env.apiKey with
  | none =>
      (Except.error "TAVILY_API_KEY is not set in the environment variables", [])
  | some key =>
      let body : TavilyRequestBody :=
        { api_key := key
          query := query
          max_results := max maxResults 5
          search_depth := searchDepth
          include_images := true
          include_domains := includeDomains
          exclude_domains := excludeDomains }
      if env.fetchOk then
        (Except.ok
          { results := env.data.results
            query := env.data.query
            images := processImages env.sanitizeUrl env.data.images
            number_of_results := env.data.number_of_results }, [body])
      else
        (Except.error "Tavily API error", [body])

/-- Arguments of the searchTool execute function (searchSchema fields). -/
structure SearchArgs where
  query : String
  max_results : Int
  search_depth : String
  include_domains : List String
  exclude_domains : List String

/-- The searchTool execute function (search.tsx lines 24 to 88), returning the
    result given back to the model together with the list of upstream HTTP
    requests made during the call. -/
def searchToolExecute (env : TavilyEnv) (args : SearchArgs) :
    SearchResults × List TavilyRequestBody :=
  let adjustedQuery :=
    if args.query.length < 5 then padEnd args.query 5 ' ' else args.query
  if args.max_results ≤ 0 then
    ({ results := [], query := adjustedQuery, images := []
       number_of_results := 0 }, [])
  else
    let depth := if args.search_depth = "advanced" then "advanced" else "basic"
    match tavilySearch env adjustedQuery args.max_results depth
        args.include_domains args.exclude_domains with
    | (Except.ok r, reqs) => (r, reqs)
    | (Except.error _, reqs) =>
        ({ results := [], query := adjustedQuery, images := []
           number_of_results := 0 }, reqs)

/-! Orchestration workflow, "lib/actions/workflow.tsx" lines 271 to 390,
    together with the agents it sequences: taskManager
    ("lib/agents/task-manager.tsx"), inquire ("lib/agents/inquire.tsx"),
    researcher ("lib/agents/researcher.tsx") and querySuggestor
    ("lib/agents/query-suggestor.tsx"). Each remote model invocation is an
    oracle: either the call or its object stream completes with a value, or
    it rejects (Except.error). -/

/-- Message type tags and roles are plain strings, as in "lib/types/index.ts". -/
inductive MsgContent where
  | text : String → MsgContent
  | jsonStr : Jdata → MsgContent

/-- An AI state message, "lib/types/index.ts" AIMessage. The content of tool
    and related messages is the JSON serialization of a value, represented by
    the jsonStr constructor. -/
structure AIMessage where
  id : String
  role : String
  content : MsgContent
  name : Option String := none
  type : String

/-- Value of the next field of nextActionSchema ("lib/schema/next-action.tsx"). -/
inductive NextActionVal where
  | inquire : NextActionVal
  | proceed : NextActionVal
deriving Repr, DecidableEq

/-- The object produced by generateObject against nextActionSchema. -/
structure NextActionObj where
  next : NextActionVal
deriving Repr, DecidableEq

/-- The generateObject result used by the workflow (its object field). -/
structure GenNextAction where
  object : NextActionObj
deriving Repr, DecidableEq

/-- taskManager ("lib/agents/task-manager.tsx" lines 7 to 21): the
    generateObject outcome passed through the internal try/catch, which maps
    any failure to null. -/
def taskManager (outcome : Except Unit GenNextAction) : Option GenNextAction :=
  match outcome with
  | Except.ok r => some r
  | Except.error _ => none

/-- A partial inquiry object; only the question field is consumed by the
    workflow (the other inquirySchema fields do not reach the AI state). -/
structure PartialInquiry where
  question : Option String := none
deriving Repr, DecidableEq

/-- inquire ("lib/agents/inquire.tsx" lines 25 to 53): fold the partial
    object stream, keeping the last emitted object (every streamed object is
    truthy); a stream failure rejects out of the function. -/
def inquire (stream : Except Unit (List PartialInquiry)) :
    Except Unit PartialInquiry :=
  match stream with
  | Except.error e => Except.error e
  | Except.ok objs =>
      Except.ok (objs.foldl (fun _ obj => obj) ({} : PartialInquiry))

/-- One tool result captured by the researcher (toolName and result). -/
structure ToolResult where
  result : Jdata
  toolName : String

/-- researcher ("lib/agents/researcher.tsx" lines 38 to 87): a successful
    streamText run yields the streamed text and the captured tool results;
    any internal failure is caught and replaced by the fallback text with no
    tool results. -/
def researcher (outcome : Except Unit (String × List ToolResult)) :
    String × List ToolResult :=
  match outcome with
  | Except.ok r => r
  | Except.error _ => ("An error has occurred. Please try again.", [])

/-- One related query suggestion ("lib/schema/related.tsx"). -/
structure RelatedItem where
  query : String
deriving Repr, DecidableEq

/-- A partial object streamed against relatedSchema: the items field may be
    absent while streaming. -/
structure PartialRelated where
  items : Option (List RelatedItem) := none
deriving Repr, DecidableEq

/-- The relatedSchema constraint ("lib/schema/related.tsx" lines 17 to 26):
    the items array must have exactly 3 entries. -/
def relatedSchemaValid (r : PartialRelated) : Bool :=
  match r.items with
  | some l => l.length == 3
  | none => false

/-- querySuggestor ("lib/agents/query-suggestor.tsx" lines 22 to 57): fold
    the partial object stream, keeping the last partial whose items field is
    present (JS truthiness of an array); a stream failure rejects out of the
    function. -/
def querySuggestor (stream : Except Unit (List PartialRelated)) :
    Except Unit PartialRelated :=
  match stream with
  | Except.error e => Except.error e
  | Except.ok objs =>
      Except.ok (objs.foldl
        (fun acc obj => if obj.items.isSome then obj else acc)
        ({} : PartialRelated))

/-- JSON.stringify of the related queries object appended by the workflow
    (workflow.tsx line 371). -/
def relatedToJdata (r : PartialRelated) : Jdata :=
  match r.items with
  | none => Jdata.obj []
  | some l =>
      Jdata.obj [("items",
        Jdata.arr (l.map fun i => Jdata.obj [("query", Jdata.str i.query)]))]

/-- AI state carried by the workflow: the message list plus the error field
    set by the catch handler (workflow.tsx lines 382 to 389). -/
structure AIState where
  messages : List AIMessage
  error : Option String := none

/-- Oracles of one workflow run: the two generated ids and the outcome of
    each remote model invocation. -/
structure WorkflowEnv where
  id : String
  inquiryId : String
  tmOutcome : Except Unit GenNextAction
  inquireStream : Except Unit (List PartialInquiry)
  researchOutcome : Except Unit (String × List ToolResult)
  relatedStream : Except Unit (List PartialRelated)

/-- Result of a workflow run: the final AI state and whether the research
    step was invoked. -/
structure WorkflowRun where
  state : AIState
  researchRan : Bool

/-- Tool message appended per captured tool result (workflow.tsx lines 333
    to 339). -/
def toolMessage (id : String) (tr : ToolResult) : AIMessage :=
  { id := id, role := "tool", content := MsgContent.jsonStr tr.result
    name := some tr.toolName, type := "tool" }

/-- Answer message (workflow.tsx lines 340 to 345). -/
def answerMessage (id : String) (text : String) : AIMessage :=
  { id := id, role := "assistant", content := MsgContent.text text
    type := "answer" }

/-- Related message (workflow.tsx lines 368 to 373). -/
def relatedMessage (id : String) (r : PartialRelated) : AIMessage :=
  { id := id, role := "assistant", content := MsgContent.jsonStr (relatedToJdata r)
    type := "related" }

/-- Followup message (workflow.tsx lines 374 to 379). -/
def followupMessage (id : String) : AIMessage :=
  { id := id, role := "assistant", content := MsgContent.text "followup"
    type := "followup" }

/-- Inquiry message (workflow.tsx lines 310 to 316); interpolation of an
    absent question renders the string undefined. -/
def inquiryMessage (id : String) (inq : PartialInquiry) : AIMessage :=
  { id := id, role := "assistant"
    content := MsgContent.text ("inquiry: " ++ inq.question.getD "undefined")
    type := "inquiry" }

/-- Error message set by the workflow catch handler (workflow.tsx line 387). -/
def workflowErrorMsg : String :=
  "An error occurred during the workflow. Please try again."

/-- The workflow ("lib/actions/workflow.tsx" lines 271 to 390). The action
    defaults to proceed; taskManager runs unless skip is set and its null
    result keeps the default. The inquire branch appends one inquiry message
    and returns. The proceed branch runs the researcher, appends its tool
    messages and the answer message (updateAIState), then runs querySuggestor
    and appends the related and followup messages (completeAIState). A
    rejected model stream escapes to the catch handler, which keeps the
    current messages and sets the error field. -/
def workflow (env : WorkflowEnv) (init : AIState) (skip : Bool) : WorkflowRun :=
  let action : GenNextAction :=
    if skip then { object := { next := NextActionVal.proceed } }
    else (taskManager env.tmOutcome).getD
      { object := { next := NextActionVal.proceed } }
  if action.object.next = NextActionVal.inquire then
    match inquire env.inquireStream with
    | Except.error _ =>
        { state := { messages := init.messages, error := some workflowErrorMsg }
          researchRan := false }
    | Except.ok inq =>
        { state := { messages := init.messages ++ [inquiryMessage env.inquiryId inq]
                     error := init.error }
          researchRan := false }
  else
    let res := researcher env.researchOutcome
    let afterResearch :=
      init.messages ++ res.2.map (toolMessage env.id) ++ [answerMessage env.id res.1]
    match querySuggestor env.relatedStream with
    | Except.error _ =>
        { state := { messages := afterResearch, error := some workflowErrorMsg }
          researchRan := true }
    | Except.ok related =>
        { state := { messages := afterResearch ++
                       [relatedMessage env.id related, followupMessage env.id]
                     error := init.error }
          researchRan := true }

/-! Advanced-search endpoint cache, "app/api/advanced-search/route.ts" lines
    18 to 136. The Redis client is modeled as an association list from keys
    to entries carrying an absolute expiry instant (seconds); the client SET
    with expiry stores now plus the TTL, GET treats an expired entry as a
    miss (Redis removes keys at expiry), and TTL is the remaining time. The
    serialized string of a cached value is never empty, so the JS truthiness
    check on the raw cached string always passes. -/

def CACHE_TTL : Int := 3600

/-- One cached entry: the deserialized value (the stored string is its JSON
    serialization) and the absolute expiry instant. -/
structure CacheEntry where
  value : Jdata
  expiresAt : Int

/-- Cache state: newest binding first; a set overwrites older bindings. -/
structure CacheState where
  entries : List (String × CacheEntry)

/-- Client GET at the key level: the first binding for the key, if any. -/
def lookupEntry (st : CacheState) (k : String) : Option CacheEntry :=
  (st.entries.find? (fun p => p.1 == k)).map Prod.snd

/-- setCachedResults (route.ts lines 93 to 111): serialize and SET with the
    one hour expiry; both client branches store the same data. -/
def setCachedResults (k : String) (v : Jdata) (now : Int) (st : CacheState) :
    CacheState :=
  { entries := (k, { value := v, expiresAt := now + CACHE_TTL }) ::
      st.entries.filter (fun p => !(p.1 == k)) }

/-- getCachedResults (route.ts lines 60 to 85): GET the key, return the
    parsed value on a hit and null on a miss; an entry past its expiry is a
    miss because Redis has removed it. -/
def getCachedResults (k : String) (now : Int) (st : CacheState) : Option Jdata :=
  match lookupEntry st k with
  | none => none
  | some e => if e.expiresAt ≤ now then none else some e.value

/-- cleanupExpiredCache (route.ts lines 117 to 133): for every key matching
    search:*, delete it when its remaining TTL is not positive. -/
def cleanupExpiredCache (now : Int) (st : CacheState) : CacheState :=
  { entries := st.entries.filter
      (fun p => !(p.1.startsWith "search:" && decide (p.2.expiresAt - now ≤ 0))) }

/-! Advanced-search POST handler, "app/api/advanced-search/route.ts" lines
    144 to 175. The body is read by request.json() before the try/catch: a
    body that is not valid JSON rejects out of the handler (Except.error).
    Inside the try, getCachedResults catches internally and NextResponse.json
    does not throw on these payloads, so the catch branch producing the 500
    envelope cannot fire. -/

/-- Parsed request body of the endpoint. -/
structure PostBody where
  query : String
  maxResults : Int
  searchDepth : String
  includeDomains : Option (List String)
  excludeDomains : Option (List String)

/-- The 200 envelope returned when the search integration is unavailable
    (route.ts lines 157 to 163), and the shape of the 500 body (lines 166 to
    173, with the extra error field). -/
structure SearchEnvelope where
  message : String
  query : String
  results : List Jdata
  images : List Jdata
  number_of_results : Int

/-- Responses the handler can produce: a cached JSON value returned verbatim,
    the unavailable envelope, or the 500 error envelope. -/
inductive PostResponse where
  | json200 : Jdata → PostResponse
  | json200Envelope : SearchEnvelope → PostResponse
  | json500 : String → SearchEnvelope → PostResponse

/-- The placeholder envelope (route.ts lines 157 to 163). -/
def unavailableEnvelope (q : String) : SearchEnvelope :=
  { message := "Search functionality is currently unavailable."
    query := q
    results := []
    images := []
    number_of_results := 0 }

/-- The cache key built by the handler (route.ts line 148); a missing domain
    array renders as the empty string. -/
def postCacheKey (b : PostBody) : String :=
  "search:" ++ b.query ++ ":" ++ toString b.maxResults ++ ":" ++ b.searchDepth
    ++ ":" ++ String.intercalate "," (b.includeDomains.getD [])
    ++ ":" ++ String.intercalate "," (b.excludeDomains.getD [])

/-- POST (route.ts lines 144 to 175). The body argument is the outcome of
    request.json(). A truthy cached value is returned verbatim; otherwise the
    unavailable envelope is returned. -/
def POST (body : Except Unit PostBody) (st : CacheState) (now : Int) :
    Except Unit PostResponse :=
  match body with
  | Except.error e => Except.error e
  | Except.ok b =>
      match getCachedResults (postCacheKey b) now st with
      | some v =>
          if jsTruthy v then Except.ok (PostResponse.json200 v)
          else Except.ok (PostResponse.json200Envelope (unavailableEnvelope b.query))
      | none => Except.ok (PostResponse.json200Envelope (unavailableEnvelope b.query))

/-! Chat persistence, "lib/actions/chat.ts". The Redis store is modeled as an
    association list of hashes (chat records) plus the per-user sorted sets,
    with a health flag: when the store is unreachable every operation inside
    the try blocks throws, which the actions catch. Both client backends
    serialize a Date hash field to its string form on the wire (the Upstash
    REST client JSON-serializes it, the local pipeline wrapper applies the JS
    String conversion), which is what the dateStr constructor records. -/

/-- The createdAt field as it can appear on a chat record read back from the
    store: a live Date object, a string or numeric serialization of one, or
    absent. -/
inductive DateField where
  | dateObj : Int → DateField
  | dateStr : Int → DateField
  | dateNum : Int → DateField
  | undef : DateField
deriving Repr, DecidableEq

/-- The messages field of a stored chat record: a live array, the JSON
    serialization of an array (a string in JS), or a string that does not
    parse as JSON. -/
inductive MsgsField where
  | arr : List AIMessage → MsgsField
  | ser : List AIMessage → MsgsField
  | badStr : String → MsgsField

/-- A chat hash as stored in Redis ("chat:" ++ id). -/
structure StoredChat where
  id : String
  title : String
  createdAt : DateField
  userId : String
  path : String
  messages : MsgsField
  sharePath : Option String := none

/-- An in-memory chat ("lib/types/index.ts" Chat): messages is an array and
    createdAt a Date (its timestamp). -/
structure Chat where
  id : String
  title : String
  createdAt : Int
  userId : String
  path : String
  messages : List AIMessage
  sharePath : Option String := none

/-- Chat store state: hashes, the per-user sorted sets, and reachability. -/
structure RedisState where
  hashes : List (String × StoredChat)
  zsets : List (String × List (Int × String))
  healthy : Bool := true

/-- Wire serialization applied to hash fields on write: a Date field travels
    as its string form on both backends; other fields are unchanged. -/
def storeFields (c : StoredChat) : StoredChat :=
  { c with createdAt :=
      match c.createdAt with
      | DateField.dateObj ms => DateField.dateStr ms
      | x => x }

/-- hmset on the store ("lib/redis/config.ts" lines 104 to 110 and the
    pipeline variants): write the full record under the key. -/
def hmset (st : RedisState) (key : String) (value : StoredChat) : RedisState :=
  { st with hashes := (key, storeFields value) ::
      st.hashes.filter (fun p => !(p.1 == key)) }

/-- zadd on the store: record the member with its score under the key. -/
def zadd (st : RedisState) (key : String) (score : Int) (member : String) :
    RedisState :=
  { st with zsets := (key, [(score, member)]) ::
      st.zsets.filter (fun p => !(p.1 == key)) }

/-- hgetall on the store: the stored record under the key, or null. -/
def hgetall (st : RedisState) (key : String) : Option StoredChat :=
  (st.hashes.find? (fun p => p.1 == key)).map Prod.snd

/-- The chat value returned to callers of getChat: the TS code casts the
    parsed record to Chat, so the createdAt field keeps its dynamic shape. -/
structure ParsedChat where
  id : String
  title : String
  createdAt : DateField
  userId : String
  path : String
  messages : List AIMessage
  sharePath : Option String := none

/-- Whether a dynamic createdAt field is a live Date object. -/
def isDateObj : DateField -> Bool
  | DateField.dateObj _ => true
  | _ => false

/-- parseChatMessages ("lib/actions/chat.ts" lines 27 to 40): a string
    messages field is parsed, falling back to the empty array when parsing
    throws; a truthy createdAt that is not a Date instance is passed to the
    Date constructor (which inverts both the string and the numeric form); a
    falsy createdAt is left untouched. -/
def parseChatMessages (c : StoredChat) : ParsedChat :=
  { id := c.id
    title := c.title
    userId := c.userId
    path := c.path
    sharePath := c.sharePath
    messages :=
      match c.messages with
      | MsgsField.arr l => l
      | MsgsField.ser l => l
      | MsgsField.badStr _ => []
    createdAt :=
      match c.createdAt with
      | DateField.dateObj ms => DateField.dateObj ms
      | DateField.dateStr ms => DateField.dateObj ms
      | DateField.dateNum ms => DateField.dateObj ms
      | DateField.undef => DateField.undef }

/-- saveChat ("lib/actions/chat.ts" lines 148 to 168): serialize the
    messages array, hmset the chat hash and zadd the user index through one
    pipeline; a store failure is caught and rethrown as the generic error. -/
def saveChat (chat : Chat) (userId : String) (now : Int) (st : RedisState) :
    Except String RedisState :=
  if st.healthy then
    let chatToSave : StoredChat :=
      { id := chat.id
        title := chat.title
        createdAt := DateField.dateObj chat.createdAt
        userId := chat.userId
        path := chat.path
        messages := MsgsField.ser chat.messages
        sharePath := chat.sharePath }
    let st1 := hmset st ("chat:" ++ chat.id) chatToSave
    let st2 := zadd st1 ("user:chat:" ++ userId) now ("chat:" ++ chat.id)
    Except.ok st2
  else
    Except.error "Failed to save chat"

/-- getChat ("lib/actions/chat.ts" lines 89 to 106): hgetall the chat hash,
    null when absent, otherwise the parsed record; a store failure is caught
    and becomes null. -/
def getChat (id : String) (st : RedisState) : Option ParsedChat :=
  if st.healthy then
    match hgetall st ("chat:" ++ id) with
    | none => none
    | some c => some (parseChatMessages c)
  else
    none

/-- The generateObject value classifying the transcript as proceed. -/
def proceedAction : GenNextAction := { object := { next := NextActionVal.proceed } }

/-- The generateObject value classifying the transcript as inquire. -/
def inquireAction : GenNextAction := { object := { next := NextActionVal.inquire } }

/-! Concrete fixtures used by witnesses and counterexamples. -/

/-- Environment with no API key configured, for concrete evaluation. -/
def envNoKey : TavilyEnv :=
  { apiKey := none
    fetchOk := false
    data := { results := [], query := "", images := [], number_of_results := 0 }
    sanitizeUrl := fun s => s }

/-- Arguments with a nonpositive max_results. -/
def argsZero : SearchArgs :=
  { query := "ro", max_results := 0, search_depth := "basic"
    include_domains := [], exclude_domains := [] }

/-- Environment with an API key and a successful upstream response. -/
def envWithKey : TavilyEnv :=
  { apiKey := some "k"
    fetchOk := true
    data := { results := [], query := "ab   ", images := [], number_of_results := 0 }
    sanitizeUrl := fun s => s }

/-- Arguments with a 2-character query and max_results 3. -/
def argsShort : SearchArgs :=
  { query := "ab", max_results := 3, search_depth := "basic"
    include_domains := [], exclude_domains := [] }

/-- The request body the adapter sends for argsShort. -/
def reqShort : TavilyRequestBody :=
  { api_key := "k", query := "ab   ", max_results := 5, search_depth := "basic"
    include_images := true, include_domains := [], exclude_domains := [] }

/-- Proceed-classified run whose follow-up suggestion stream rejects. -/
def envC1cex : WorkflowEnv :=
  { id := "m1", inquiryId := "m2"
    tmOutcome := Except.ok proceedAction
    inquireStream := Except.ok []
    researchOutcome := Except.ok ("the answer", [])
    relatedStream := Except.error () }

/-- Proceed-classified run where every model call completes. -/
def envC1ok : WorkflowEnv :=
  { id := "m1", inquiryId := "m2"
    tmOutcome := Except.ok proceedAction
    inquireStream := Except.ok []
    researchOutcome := Except.ok ("the answer",
      [{ result := Jdata.str "res", toolName := "search" }])
    relatedStream := Except.ok
      [{ items := some [{ query := "q1" }, { query := "q2" }, { query := "q3" }] }] }

/-- The related object reached by the suggestion stream of envC1ok. -/
def rC1 : PartialRelated :=
  { items := some [{ query := "q1" }, { query := "q2" }, { query := "q3" }] }

/-- Inquire-classified run whose inquiry stream rejects. -/
def envC2cex : WorkflowEnv :=
  { id := "m1", inquiryId := "m2"
    tmOutcome := Except.ok inquireAction
    inquireStream := Except.error ()
    researchOutcome := Except.ok ("", [])
    relatedStream := Except.ok [] }

/-- Inquire-classified run where the inquiry stream completes. -/
def envC2ok : WorkflowEnv :=
  { id := "m1", inquiryId := "m2"
    tmOutcome := Except.ok inquireAction
    inquireStream := Except.ok [{ question := some "which brand" }]
    researchOutcome := Except.ok ("", [])
    relatedStream := Except.ok [] }

/-- Run whose classification call fails and whose later steps complete. -/
def envC10 : WorkflowEnv :=
  { id := "m1", inquiryId := "m2"
    tmOutcome := Except.error ()
    inquireStream := Except.ok []
    researchOutcome := Except.ok ("the answer", [])
    relatedStream := Except.ok [{ items := some [{ query := "q1" }] }] }

/-- An empty cache state. -/
def emptyCache : CacheState := { entries := [] }

/-- A parsed request body for the advanced-search endpoint. -/
def bodyA : PostBody :=
  { query := "rolex", maxResults := 10, searchDepth := "basic"
    includeDomains := none, excludeDomains := none }

/-- A chat with one message, for concrete evaluation. -/
def chatA : Chat :=
  { id := "c1", title := "first question", createdAt := 1700000000000
    userId := "anonymous", path := "/search/c1"
    messages := [{ id := "m1", role := "user"
                   content := MsgContent.text "hi", type := "input" }] }

/-- An unreachable chat store: every operation inside the try blocks throws. -/
def deadStore : RedisState := { hashes := [], zsets := [], healthy := false }

/-- An empty reachable chat store. -/
def emptyStore : RedisState := { hashes := [], zsets := [], healthy := true }

/-! Theorems. Shared lemmas come first, then one theorem per claim with its
    witness or counterexample. -/

/-- Every request issued by tavilySearch carries the query it was given and
    a max_results raised to at least 5. -/
theorem tavilySearch_requests (env : TavilyEnv) (q : String) (mr : Int)
    (sd : String) (incl excl : List String) :
    ∀ req ∈ (tavilySearch env q mr sd incl excl).2,
      req.query = q ∧ req.max_results = max mr 5 := by
  intro req hreq
  unfold tavilySearch at hreq
  cases henv : env.apiKey with
  | none => rw [henv] at hreq; simp at hreq
  | some key =>
      rw [henv] at hreq
      by_cases hf : env.fetchOk
      · simp [hf] at hreq
        subst hreq
        exact ⟨rfl, rfl⟩
      · simp [hf] at hreq
        subst hreq
        exact ⟨rfl, rfl⟩

/-- Every request issued during a searchTool execution carries the adjusted
    query and a max_results raised to at least 5. -/
theorem searchToolExecute_requests (env : TavilyEnv) (args : SearchArgs) :
    ∀ req ∈ (searchToolExecute env args).2,
      req.query =
        (if args.query.length < 5 then padEnd args.query 5 ' ' else args.query) ∧
      req.max_results = max args.max_results 5 := by
  intro req hreq
  unfold searchToolExecute at hreq
  by_cases hm : args.max_results ≤ 0
  · simp [hm] at hreq
  · simp only [hm, if_false, if_neg hm] at hreq
    rcases hma : tavilySearch env
        (if args.query.length < 5 then padEnd args.query 5 ' ' else args.query)
        args.max_results
        (if args.search_depth = "advanced" then "advanced" else "basic")
        args.include_domains args.exclude_domains with ⟨res, reqs⟩
    rw [hma] at hreq
    have hmem : req ∈ reqs := by
      cases res with
      | ok r => simpa using hreq
      | error e => simpa using hreq
    have := tavilySearch_requests env
      (if args.query.length < 5 then padEnd args.query 5 ' ' else args.query)
      args.max_results
      (if args.search_depth = "advanced" then "advanced" else "basic")
      args.include_domains args.exclude_domains req (by rw [hma]; exact hmem)
    exact this

/-- Padding a short string reaches exactly the target length. -/
theorem padEnd_length (s : String) (n : Nat) (c : Char) (h : s.length ≤ n) :
    (padEnd s n c).length = n := by
  simp [padEnd]
  omega

/-- Claim C3: a searchTool execution with max_results at most 0 returns empty
    results, empty images and number_of_results 0, and issues no upstream
    HTTP request (tavilySearch is not called). -/
theorem searchTool_nonpositive_max_results (env : TavilyEnv) (args : SearchArgs)
    (h : args.max_results ≤ 0) :
    (searchToolExecute env args).1.results = [] ∧
    (searchToolExecute env args).1.images = [] ∧
    (searchToolExecute env args).1.number_of_results = 0 ∧
    (searchToolExecute env args).2 = [] := by
  simp [searchToolExecute, h]


theorem searchTool_nonpositive_max_results_witness :
    argsZero.max_results ≤ 0 ∧
    ((searchToolExecute envNoKey argsZero).1.results = [] ∧
     (searchToolExecute envNoKey argsZero).1.images = [] ∧
     (searchToolExecute envNoKey argsZero).1.number_of_results = 0 ∧
     (searchToolExecute envNoKey argsZero).2 = []) :=
  ⟨by decide, searchTool_nonpositive_max_results envNoKey argsZero (by decide)⟩

/-- Claim C4: every query actually sent to the upstream search API is the
    original query when it has at least 5 characters, and otherwise the
    original query padded with trailing spaces to length exactly 5. -/
theorem searchTool_query_padding (env : TavilyEnv) (args : SearchArgs)
    (req : TavilyRequestBody) (hreq : req ∈ (searchToolExecute env args).2) :
    (args.query.length < 5 →
      req.query = args.query ++ String.mk (List.replicate (5 - args.query.length) ' ') ∧
      req.query.length = 5) ∧
    (5 ≤ args.query.length → req.query = args.query) := by
  have h := (searchToolExecute_requests env args req hreq).1
  constructor
  · intro hlt
    rw [h, if_pos hlt]
    exact ⟨rfl, padEnd_length args.query 5 ' ' (Nat.le_of_lt hlt)⟩
  · intro hge
    rw [h, if_neg (by omega)]


theorem searchTool_query_padding_witness :
    reqShort ∈ (searchToolExecute envWithKey argsShort).2 ∧
    ((argsShort.query.length < 5 →
      reqShort.query = argsShort.query ++
        String.mk (List.replicate (5 - argsShort.query.length) ' ') ∧
      reqShort.query.length = 5) ∧
    (5 ≤ argsShort.query.length → reqShort.query = argsShort.query)) :=
  ⟨by decide, searchTool_query_padding envWithKey argsShort reqShort (by decide)⟩

/-- Claim C9: for a searchTool execution with max_results strictly between 0
    and 5, every request body sent to the upstream search API carries
    max_results equal to 5. -/
theorem searchTool_min_five_upstream (env : TavilyEnv) (args : SearchArgs)
    (req : TavilyRequestBody) (hreq : req ∈ (searchToolExecute env args).2)
    (h0 : 0 < args.max_results) (h5 : args.max_results < 5) :
    req.max_results = 5 := by
  have h := (searchToolExecute_requests env args req hreq).2
  rw [h]
  exact max_eq_right (le_of_lt h5)

theorem searchTool_min_five_upstream_witness :
    reqShort ∈ (searchToolExecute envWithKey argsShort).2 ∧
    0 < argsShort.max_results ∧ argsShort.max_results < 5 ∧
    reqShort.max_results = 5 :=
  ⟨by decide, by decide, by decide,
    searchTool_min_five_upstream envWithKey argsShort reqShort
      (by decide) (by decide) (by decide)⟩


/-- Claim C1, counterexample: a run whose classification yields proceed and
    whose research step completes, but whose follow-up suggestion stream
    rejects, appends only the answer message: no related message and no
    followup message reach the AI state, contradicting the claim as stated. -/
theorem workflow_proceed_appends_cex :
    envC1cex.tmOutcome = Except.ok proceedAction ∧
    envC1cex.researchOutcome = Except.ok ("the answer", []) ∧
    (workflow envC1cex { messages := [] } false).state.messages.filter
      (fun m => m.type == "related") = [] ∧
    (workflow envC1cex { messages := [] } false).state.messages.filter
      (fun m => m.type == "followup") = [] ∧
    (workflow envC1cex { messages := [] } false).state.messages.length = 1 :=
  ⟨rfl, rfl, rfl, rfl, rfl⟩

/-- Claim C1 (amended): for every run in which classification yields proceed,
    the research step completes with text and captured tool results, and the
    follow-up suggestion stream completes with an object satisfying the
    related schema (exactly 3 items), the workflow appends to the AI state,
    in this order: one tool message (role tool, content the serialized tool
    result) per captured tool result, then exactly one answer message, then
    exactly one related message whose content serializes exactly 3 query
    suggestions, then exactly one followup message; no error state is set. -/
theorem workflow_proceed_appends (env : WorkflowEnv) (init : AIState)
    (hinit : init.error = none)
    (htm : env.tmOutcome = Except.ok proceedAction)
    (text : String) (trs : List ToolResult)
    (hres : env.researchOutcome = Except.ok (text, trs))
    (r : PartialRelated) (hqs : querySuggestor env.relatedStream = Except.ok r)
    (items : List RelatedItem) (hitems : r.items = some items)
    (h3 : items.length = 3) :
    (workflow env init false).state.messages =
      init.messages
        ++ trs.map (fun tr =>
            { id := env.id, role := "tool"
              content := MsgContent.jsonStr tr.result
              name := some tr.toolName, type := "tool" })
        ++ [{ id := env.id, role := "assistant"
              content := MsgContent.text text, type := "answer" },
            { id := env.id, role := "assistant"
              content := MsgContent.jsonStr (relatedToJdata r), type := "related" },
            { id := env.id, role := "assistant"
              content := MsgContent.text "followup", type := "followup" }] ∧
    relatedSchemaValid r = true ∧
    (workflow env init false).state.error = none := by
  have hfun : (fun tr => ({ id := env.id, role := "tool", content := MsgContent.jsonStr tr.result, name := some tr.toolName, type := "tool" } : AIMessage)) = toolMessage env.id := by
    funext tr
    rfl
  refine ⟨?_, ?_, ?_⟩
  · rw [hfun]
    simp [workflow, taskManager, htm, hres, hqs, researcher, proceedAction,
      answerMessage, relatedMessage, followupMessage]
  · simp [relatedSchemaValid, hitems, h3]
  · simp [workflow, taskManager, htm, hres, hqs, researcher, proceedAction, hinit]


theorem workflow_proceed_appends_witness :
    (workflow envC1ok { messages := [] } false).state.messages =
      [] ++ ([{ result := Jdata.str "res", toolName := "search" }] :
              List ToolResult).map
            (fun tr => ({ id := envC1ok.id, role := "tool"
                          content := MsgContent.jsonStr tr.result
                          name := some tr.toolName, type := "tool" } : AIMessage))
        ++ [{ id := envC1ok.id, role := "assistant"
              content := MsgContent.text "the answer", type := "answer" },
            { id := envC1ok.id, role := "assistant"
              content := MsgContent.jsonStr (relatedToJdata rC1), type := "related" },
            { id := envC1ok.id, role := "assistant"
              content := MsgContent.text "followup", type := "followup" }] ∧
    relatedSchemaValid rC1 = true ∧
    (workflow envC1ok { messages := [] } false).state.error = none :=
  workflow_proceed_appends envC1ok { messages := [] } rfl rfl
    "the answer" [{ result := Jdata.str "res", toolName := "search" }] rfl
    rC1 rfl [{ query := "q1" }, { query := "q2" }, { query := "q3" }] rfl rfl


/-- Claim C2, counterexample: a run whose classification yields inquire but
    whose inquiry stream rejects appends no message at all (in particular not
    exactly one inquiry message) and sets the terminal error state,
    contradicting the claim as stated. -/
theorem workflow_inquire_cex :
    envC2cex.tmOutcome = Except.ok inquireAction ∧
    (workflow envC2cex { messages := [] } false).state.messages = [] ∧
    (workflow envC2cex { messages := [] } false).state.error = some workflowErrorMsg :=
  ⟨rfl, rfl, rfl⟩

/-- Claim C2 (amended): for every run in which classification yields inquire
    and the inquiry stream completes, the workflow appends exactly one
    inquiry message carrying the structured question and returns without
    running the research step; no tool, answer, related or followup message
    is appended in that run and no error state is set. -/
theorem workflow_inquire_appends (env : WorkflowEnv) (init : AIState)
    (hinit : init.error = none)
    (htm : env.tmOutcome = Except.ok inquireAction)
    (inq : PartialInquiry) (hinq : inquire env.inquireStream = Except.ok inq) :
    (workflow env init false).state.messages =
      init.messages ++
        [{ id := env.inquiryId, role := "assistant"
           content := MsgContent.text ("inquiry: " ++ inq.question.getD "undefined")
           type := "inquiry" }] ∧
    (workflow env init false).researchRan = false ∧
    (workflow env init false).state.error = none ∧
    ∀ m ∈ (workflow env init false).state.messages.drop init.messages.length,
      m.type = "inquiry" := by
  have hmsg : (workflow env init false).state.messages =
      init.messages ++ [inquiryMessage env.inquiryId inq] := by
    simp [workflow, taskManager, htm, hinq, inquireAction]
  refine ⟨?_, ?_, ?_, ?_⟩
  · rw [hmsg]; rfl
  · simp [workflow, taskManager, htm, hinq, inquireAction]
  · simp [workflow, taskManager, htm, hinq, inquireAction, hinit]
  · intro m hm
    rw [hmsg, List.drop_left] at hm
    simp at hm
    rw [hm]
    rfl


theorem workflow_inquire_appends_witness :
    (workflow envC2ok { messages := [] } false).state.messages =
      [] ++
        [{ id := envC2ok.inquiryId, role := "assistant"
           content := MsgContent.text
             ("inquiry: " ++ (some "which brand").getD "undefined")
           type := "inquiry" }] ∧
    (workflow envC2ok { messages := [] } false).researchRan = false ∧
    (workflow envC2ok { messages := [] } false).state.error = none ∧
    ∀ m ∈ (workflow envC2ok { messages := [] } false).state.messages.drop
        ([] : List AIMessage).length,
      m.type = "inquiry" :=
  workflow_inquire_appends envC2ok { messages := [] } rfl rfl
    { question := some "which brand" } rfl

/-- Claim C10: when the classification step fails internally (taskManager
    catches the failure and returns null), the workflow keeps the default
    proceed action: the run is identical to a run whose classification
    returned proceed, the research step runs, no inquiry message is
    appended, and, with the later steps completing, no terminal error state
    is produced. -/
theorem workflow_classification_failure (env : WorkflowEnv) (init : AIState)
    (hinit : init.error = none)
    (htm : env.tmOutcome = Except.error ())
    (ps : List PartialRelated) (hqs : env.relatedStream = Except.ok ps) :
    workflow env init false =
      workflow { env with tmOutcome := Except.ok proceedAction } init false ∧
    (workflow env init false).researchRan = true ∧
    (workflow env init false).state.error = none ∧
    ∀ m ∈ (workflow env init false).state.messages.drop init.messages.length,
      m.type ≠ "inquiry" := by
  have hmsg : (workflow env init false).state.messages =
      init.messages ++
        ((researcher env.researchOutcome).2.map (toolMessage env.id) ++
          ([answerMessage env.id (researcher env.researchOutcome).1] ++
            [relatedMessage env.id
              (ps.foldl (fun acc obj => if obj.items.isSome then obj else acc)
                { items := none }),
             followupMessage env.id])) := by
    simp [workflow, taskManager, htm, hqs, querySuggestor]
  refine ⟨?_, ?_, ?_, ?_⟩
  · simp [workflow, taskManager, htm, proceedAction]
  · simp [workflow, taskManager, htm, hqs, querySuggestor]
  · simp [workflow, taskManager, htm, hqs, querySuggestor, hinit]
  · intro m hm
    rw [hmsg, List.drop_left] at hm
    rcases List.mem_append.mp hm with hmem | hmem
    · rcases List.mem_map.mp hmem with ⟨tr, _, htr⟩
      rw [← htr]
      simp [toolMessage]
    · rcases List.mem_append.mp hmem with hmem2 | hmem2
      · simp at hmem2
        rw [hmem2]
        simp [answerMessage]
      · simp at hmem2
        rcases hmem2 with h1 | h1 <;> rw [h1] <;>
          simp [relatedMessage, followupMessage]


theorem workflow_classification_failure_witness :
    workflow envC10 { messages := [] } false =
      workflow { envC10 with tmOutcome := Except.ok proceedAction }
        { messages := [] } false ∧
    (workflow envC10 { messages := [] } false).researchRan = true ∧
    (workflow envC10 { messages := [] } false).state.error = none ∧
    ∀ m ∈ (workflow envC10 { messages := [] } false).state.messages.drop
        ([] : List AIMessage).length,
      m.type ≠ "inquiry" :=
  workflow_classification_failure envC10 { messages := [] } rfl rfl
    [{ items := some [{ query := "q1" }] }] rfl

/-- Claim C6: writing a JSON-serializable value under a key and reading the
    key back immediately returns the same deserialized value; at or after
    expiry of the 3600 second TTL the read is a cache miss, the cleanup
    sweep removes the expired entry (for the search-prefixed keys it
    scans), and after the sweep the read is still a miss. -/
theorem cache_roundtrip_expiry (k : String) (v : Jdata) (now t : Int)
    (st : CacheState) (hexp : now + CACHE_TTL ≤ t) :
    getCachedResults k now (setCachedResults k v now st) = some v ∧
    getCachedResults k t (setCachedResults k v now st) = none ∧
    (k.startsWith "search:" = true →
      lookupEntry (cleanupExpiredCache t (setCachedResults k v now st)) k = none) ∧
    getCachedResults k t (cleanupExpiredCache t (setCachedResults k v now st)) = none := by
  have hlook : lookupEntry (setCachedResults k v now st) k =
      some { value := v, expiresAt := now + CACHE_TTL } := by
    unfold lookupEntry setCachedResults
    rw [List.find?_cons_of_pos _ (by simp)]
    rfl
  have hnotyet : ¬ (now + CACHE_TTL ≤ now) := by
    unfold CACHE_TTL
    omega
  have hcleanNone : k.startsWith "search:" = true →
      lookupEntry (cleanupExpiredCache t (setCachedResults k v now st)) k = none := by
    intro hs
    unfold lookupEntry
    have hfind : (cleanupExpiredCache t (setCachedResults k v now st)).entries.find?
        (fun p => p.1 == k) = none := by
      rw [List.find?_eq_none]
      intro x hx
      simp only [cleanupExpiredCache, setCachedResults] at hx
      obtain ⟨hx1, hx2⟩ := List.mem_filter.mp hx
      rcases List.mem_cons.mp hx1 with hhead | htail
      · subst hhead
        simp [hs] at hx2
        omega
      · have hne := (List.mem_filter.mp htail).2
        simp at hne
        simp [hne]
    rw [hfind]
    rfl
  refine ⟨?_, ?_, hcleanNone, ?_⟩
  · unfold getCachedResults
    rw [hlook]
    simp [hnotyet]
  · unfold getCachedResults
    rw [hlook]
    simp [hexp]
  · by_cases hs : k.startsWith "search:" = true
    · unfold getCachedResults
      rw [hcleanNone hs]
    · have hkeep : lookupEntry (cleanupExpiredCache t (setCachedResults k v now st)) k =
          some { value := v, expiresAt := now + CACHE_TTL } := by
        unfold lookupEntry
        simp only [cleanupExpiredCache, setCachedResults]
        rw [List.filter_cons_of_pos]
        · rw [List.find?_cons_of_pos _ (by simp)]
          rfl
        · simp [hs]
      unfold getCachedResults
      rw [hkeep]
      simp [hexp]

theorem cache_roundtrip_expiry_witness :
    (0 : Int) + CACHE_TTL ≤ 3600 ∧
    (getCachedResults "search:q" 0 (setCachedResults "search:q" (Jdata.num 1) 0 emptyCache) =
      some (Jdata.num 1) ∧
    getCachedResults "search:q" 3600 (setCachedResults "search:q" (Jdata.num 1) 0 emptyCache) = none ∧
    ("search:q".startsWith "search:" = true →
      lookupEntry (cleanupExpiredCache 3600
        (setCachedResults "search:q" (Jdata.num 1) 0 emptyCache)) "search:q" = none) ∧
    getCachedResults "search:q" 3600
      (cleanupExpiredCache 3600 (setCachedResults "search:q" (Jdata.num 1) 0 emptyCache)) = none) :=
  ⟨by decide, cache_roundtrip_expiry "search:q" (Jdata.num 1) 0 3600 emptyCache (by decide)⟩

/-- Claim C5: saving a chat with N messages and fetching it back by id from
    the same store returns a chat whose messages array has exactly N entries
    and whose createdAt field is a live Date object, not the raw string read
    back from the store. -/
theorem saveChat_getChat_roundtrip (chat : Chat) (userId : String) (now : Int)
    (st : RedisState) (hh : st.healthy = true) :
    ∃ st2, saveChat chat userId now st = Except.ok st2 ∧
      ∃ c, getChat chat.id st2 = some c ∧
        c.messages.length = chat.messages.length ∧
        isDateObj c.createdAt = true := by
  have hsave : saveChat chat userId now st = Except.ok
      (zadd (hmset st ("chat:" ++ chat.id)
        { id := chat.id, title := chat.title
          createdAt := DateField.dateObj chat.createdAt
          userId := chat.userId, path := chat.path
          messages := MsgsField.ser chat.messages
          sharePath := chat.sharePath })
        ("user:chat:" ++ userId) now ("chat:" ++ chat.id)) := by
    unfold saveChat
    rw [if_pos hh]
  refine ⟨_, hsave, ?_⟩
  unfold getChat
  rw [if_pos (show (zadd (hmset st ("chat:" ++ chat.id) _) _ now _).healthy = true from hh)]
  unfold hgetall zadd hmset
  rw [List.find?_cons_of_pos _ (by simp)]
  exact ⟨_, rfl, rfl, rfl⟩

theorem saveChat_getChat_roundtrip_witness :
    emptyStore.healthy = true ∧
    (∃ st2, saveChat chatA "anonymous" 0 emptyStore = Except.ok st2 ∧
      ∃ c, getChat chatA.id st2 = some c ∧
        c.messages.length = chatA.messages.length ∧
        isDateObj c.createdAt = true) :=
  ⟨rfl, saveChat_getChat_roundtrip chatA "anonymous" 0 emptyStore rfl⟩

/-- Claim C7, counterexample: a POST request whose body is not valid JSON
    rejects out of the handler before its try/catch (request.json() runs
    outside the try block), so the handler produces neither the JSON result
    envelope nor a 500 JSON error response, contradicting the claim as
    stated. -/
theorem post_invalid_body_cex :
    POST (Except.error ()) emptyCache 0 = Except.error () := rfl

/-- Claim C7 (amended): for every POST request whose body parses as JSON the
    handler returns a 200 JSON response: the cached value verbatim when the
    cache key hits a truthy entry, and otherwise the envelope with message,
    query, empty results, empty images and number_of_results 0 (in
    particular it always does so when the cache misses, and nothing in the
    program writes this cache); the 500 error branch is unreachable because
    every step inside the try catches internally; a request whose body does
    not parse throws instead of responding. -/
theorem post_response_shape (b : PostBody) (st : CacheState) (now : Int) :
    (getCachedResults (postCacheKey b) now st = none →
      POST (Except.ok b) st now =
        Except.ok (PostResponse.json200Envelope (unavailableEnvelope b.query))) ∧
    (∀ r, POST (Except.ok b) st now = Except.ok r →
      (∃ v, r = PostResponse.json200 v ∧ jsTruthy v = true) ∨
        r = PostResponse.json200Envelope (unavailableEnvelope b.query)) ∧
    (∀ e env2, POST (Except.ok b) st now ≠ Except.ok (PostResponse.json500 e env2)) := by
  refine ⟨?_, ?_, ?_⟩
  · intro hmiss
    simp only [POST]
    rw [hmiss]
  · intro r hr
    simp only [POST] at hr
    cases hc : getCachedResults (postCacheKey b) now st with
    | none =>
        rw [hc] at hr
        simp at hr
        exact Or.inr hr.symm
    | some v =>
        rw [hc] at hr
        by_cases hv : jsTruthy v = true
        · simp [hv] at hr
          exact Or.inl ⟨v, hr.symm, hv⟩
        · simp [hv] at hr
          exact Or.inr hr.symm
  · intro e env2 hcontra
    simp only [POST] at hcontra
    cases hc : getCachedResults (postCacheKey b) now st with
    | none =>
        rw [hc] at hcontra
        simp at hcontra
    | some v =>
        rw [hc] at hcontra
        by_cases hv : jsTruthy v = true <;> simp [hv] at hcontra

theorem post_response_shape_witness :
    POST (Except.ok bodyA) emptyCache 0 =
      Except.ok (PostResponse.json200Envelope (unavailableEnvelope bodyA.query)) :=
  (post_response_shape bodyA emptyCache 0).1 rfl

/-- Claim C8, counterexample: saveChat is a transport-boundary chat server
    action, yet on an internal store failure it catches the error and
    rethrows a generic one instead of returning a well-formed result shape,
    contradicting the claim as stated. -/
theorem boundary_saveChat_rethrows_cex :
    saveChat chatA "anonymous" 0 deadStore = Except.error "Failed to save chat" := rfl

/-- Claim C8 (amended): the advanced-search POST handler returns a
    well-formed response for every request whose body parses as JSON (a body
    that fails JSON parsing rejects before the try/catch), and getChat
    converts store failures into null; saveChat alone catches internal
    failures and rethrows the single generic error instead of returning a
    result shape. -/
theorem boundary_error_handling (b : PostBody) (st : CacheState) (now : Int)
    (cid : String) (chat : Chat) (userId : String) (rst : RedisState)
    (hun : rst.healthy = false) :
    (∃ r, POST (Except.ok b) st now = Except.ok r) ∧
    getChat cid rst = none ∧
    saveChat chat userId now rst = Except.error "Failed to save chat" := by
  refine ⟨?_, ?_, ?_⟩
  · simp only [POST]
    cases hc : getCachedResults (postCacheKey b) now st with
    | none => exact ⟨_, rfl⟩
    | some v =>
        by_cases hv : jsTruthy v = true
        · refine ⟨PostResponse.json200 v, ?_⟩
          simp [hv]
        · refine ⟨PostResponse.json200Envelope (unavailableEnvelope b.query), ?_⟩
          simp [hv]
  · unfold getChat
    rw [if_neg (by rw [hun]; exact Bool.false_ne_true)]
  · unfold saveChat
    rw [if_neg (by rw [hun]; exact Bool.false_ne_true)]

theorem boundary_error_handling_witness :
    deadStore.healthy = false ∧
    ((∃ r, POST (Except.ok bodyA) emptyCache 0 = Except.ok r) ∧
    getChat "c1" deadStore = none ∧
    saveChat chatA "anonymous" 0 deadStore = Except.error "Failed to save chat") :=
  ⟨rfl, boundary_error_handling bodyA emptyCache 0 "c1" chatA "anonymous" deadStore rfl⟩

end Morphic
